import Mathlib

/-!
Verification development for the NexusAutoDL scanner.

This file gives a shallow embedding of the core logic of the repository:
the multi-monitor geometry mapper (services/screen_capture.py), the
bounding-box value type (models/bounding_box.py), the SIFT feature-matching
detector logic (services/button_detector.py) and the scan-loop state machine
(services/scanner.py).  External collaborators (the mss capture library,
OpenCV keypoint extraction and knn matching, the win32 window locator) are
modelled as explicit inputs: the pure control flow and arithmetic of the
Python source is translated one-to-one, with Python ints as Int, Python
floats as Rat, and raising constructors as Option-returning functions.
-/

/-- models/monitor.py: `Monitor` record with screen position and size.
The pydantic validators require `width > 0` and `height > 0`; here the fields
are plain integers and positivity is assumed where a claim needs it. -/
structure Monitor where
  x : Int
  y : Int
  width : Int
  height : Int
deriving DecidableEq, Repr

/-- An mss-style monitor dictionary `{top, left, width, height}`. -/
structure Rect where
  top : Int
  left : Int
  width : Int
  height : Int
deriving DecidableEq, Repr

/-- The primary monitor's own bounds as a capture rect, mirroring the
fallback dict built in `ScreenCapture._get_primary_monitor_bounds`:
`{top: m.y, left: m.x, width: m.width, height: m.height}`. -/
def Monitor.toRect (m : Monitor) : Rect :=
  { top := m.y, left := m.x, width := m.width, height := m.height }

/-- Union bounding box of a list of monitor rects:
`left = min x`, `top = min y`, `width = max (x+width) - left`,
`height = max (y+height) - top`.  For the empty list it is the zero rect
(mss never reports an empty monitor list). -/
def unionBBox : List Rect → Rect
  | [] => { top := 0, left := 0, width := 0, height := 0 }
  | r :: rs =>
    let l := rs.foldl (fun a s => min a s.left) r.left
    let t := rs.foldl (fun a s => min a s.top) r.top
    let rgt := rs.foldl (fun a s => max a (s.left + s.width)) (r.left + r.width)
    let bot := rs.foldl (fun a s => max a (s.top + s.height)) (r.top + r.height)
    { top := t, left := l, width := rgt - l, height := bot - t }

/-- Model of the mss library's `mss().monitors` property, from its documented
contract: index 0 is the full virtual desktop (the union bounding box of all
physical displays, which may have a negative `left`/`top` when a display sits
left of or above the primary), followed by one entry per physical display. -/
def mssMonitors (physical : List Rect) : List Rect :=
  unionBBox physical :: physical

/-- L1 distance between an mss rect and an app-level monitor, the `key`
used by `ScreenCapture._match_monitor_to_mss`. -/
def l1Dist (r : Rect) (t : Monitor) : Int :=
  |r.left - t.x| + |r.top - t.y| + |r.width - t.width| + |r.height - t.height|

/-- `ScreenCapture._match_monitor_to_mss`: pick the mss physical monitor
closest (L1 on left/top/width/height) to the target app monitor.  mss index 0
is the virtual desktop, so the physical entries are `screen_monitors[1:]`
when more than one entry exists, else the whole list.  Python's `min` keeps
the first element among ties, as does the fold below. -/
def matchMonitorToMss (target : Monitor) (screenMonitors : List Rect) : Option Rect :=
  match screenMonitors with
  | [] => none
  | s :: rest =>
    let physical := if rest.isEmpty then s :: rest else rest
    match physical with
    | [] => none
    | p :: ps =>
      some (ps.foldl (fun best r => if l1Dist r target < l1Dist best target then r else best) p)

/-- `ScreenCapture._get_primary_monitor_bounds`: resolve the first supplied
monitor against mss data, falling back to the monitor's own geometry when no
mss entry can be matched. -/
def getPrimaryMonitorBounds (monitors : List Monitor) (screenMonitors : List Rect) : Rect :=
  let primary := monitors.headD { x := 0, y := 0, width := 0, height := 0 }
  match matchMonitorToMss primary screenMonitors with
  | some r => r
  | none => primary.toRect

/-- `ScreenCapture._determine_capture_region`: primary bounds when
`force_primary` or mss reports at most one entry; otherwise
`screen.monitors[0]`, the full virtual desktop. -/
def determineCaptureRegion (forcePrimary : Bool) (monitors : List Monitor)
    (screenMonitors : List Rect) : Rect :=
  if forcePrimary = true ∨ screenMonitors.length ≤ 1 then
    getPrimaryMonitorBounds monitors screenMonitors
  else
    screenMonitors.headD { top := 0, left := 0, width := 0, height := 0 }

/-- State of a constructed `ScreenCapture`: the supplied app monitors, the
mss monitor list observed at construction, the flag, and the derived capture
region `v_monitor`. -/
structure ScreenCapture where
  monitors : List Monitor
  screen_monitors : List Rect
  force_primary : Bool
  v_monitor : Rect
deriving DecidableEq, Repr

/-- `ScreenCapture.__init__`: raises `ValueError` on an empty monitor list
(modelled as `none`), otherwise records the inputs and computes the capture
region.  `screenMonitors` is the list the mss library reports. -/
def mkScreenCapture (monitors : List Monitor) (screenMonitors : List Rect)
    (forcePrimary : Bool) : Option ScreenCapture :=
  if monitors.isEmpty then none
  else some { monitors := monitors, screen_monitors := screenMonitors,
              force_primary := forcePrimary,
              v_monitor := determineCaptureRegion forcePrimary monitors screenMonitors }

/-- `self.min_x = self.v_monitor["left"]`. -/
def ScreenCapture.min_x (sc : ScreenCapture) : Int := sc.v_monitor.left

/-- `self.min_y = self.v_monitor["top"]`. -/
def ScreenCapture.min_y (sc : ScreenCapture) : Int := sc.v_monitor.top

/-- `ScreenCapture.img_coords_to_monitor_coords`: `(x + min_x, y + min_y)`. -/
def ScreenCapture.img_coords_to_monitor_coords (sc : ScreenCapture) (x y : Int) : Int × Int :=
  (x + sc.min_x, y + sc.min_y)

/-- `ScreenCapture.monitor_coords_to_img_coords`: `(x - min_x, y - min_y)`. -/
def ScreenCapture.monitor_coords_to_img_coords (sc : ScreenCapture) (x y : Int) : Int × Int :=
  (x - sc.min_x, y - sc.min_y)

/-- Python's `int()` applied to an exact rational: truncation toward zero
(floor for nonnegative values, ceiling for negative ones). -/
def pyInt (q : Rat) : Int :=
  if 0 ≤ q then q.floor else q.ceil

/-- models/bounding_box.py: the `BoundingBox` record fields. -/
structure BoundingBox where
  x1 : Int
  y1 : Int
  x2 : Int
  y2 : Int
deriving DecidableEq, Repr

/-- The pydantic validator invariant: `x2 > x1` and `y2 > y1`. -/
def BoundingBox.isValid (b : BoundingBox) : Prop :=
  b.x1 < b.x2 ∧ b.y1 < b.y2

instance (b : BoundingBox) : Decidable b.isValid := by
  unfold BoundingBox.isValid; infer_instance

/-- `BoundingBox(...)` construction: the validators raise (modelled as
`none`) unless `x2 > x1` and `y2 > y1`. -/
def mkBoundingBox (x1 y1 x2 y2 : Int) : Option BoundingBox :=
  if x1 < x2 ∧ y1 < y2 then some { x1 := x1, y1 := y1, x2 := x2, y2 := y2 } else none

/-- `BoundingBox.width = x2 - x1`. -/
def BoundingBox.width (b : BoundingBox) : Int := b.x2 - b.x1

/-- `BoundingBox.height = y2 - y1`. -/
def BoundingBox.height (b : BoundingBox) : Int := b.y2 - b.y1

/-- `BoundingBox.pad`: `w_pad = int(width * factor)`,
`h_pad = int(height * factor)`, then construct
`BoundingBox(x1 + w_pad, y1 + h_pad, x2 - w_pad, y2 - h_pad)`; the
constructor's validators raise (here: `none`) when the shrunken box is
degenerate. -/
def BoundingBox.pad (b : BoundingBox) (factor : Rat) : Option BoundingBox :=
  let w_pad := pyInt ((b.width : Rat) * factor)
  let h_pad := pyInt ((b.height : Rat) * factor)
  mkBoundingBox (b.x1 + w_pad) (b.y1 + h_pad) (b.x2 - w_pad) (b.y2 - h_pad)

/-- models/button_type.py: the `ButtonType` enumeration. -/
inductive ButtonType where
  | VORTEX
  | WEBSITE
  | WABBAJACK
  | CLICK
  | UNDERSTOOD
  | STAGING
deriving DecidableEq, Repr

/-- models/detection_result.py: `DetectionResult` record.  `confidence` is a
Python float, modelled as an exact rational. -/
structure DetectionResult where
  button_type : ButtonType
  x : Int
  y : Int
  confidence : Rat
  num_matches : Nat
  template_width : Option Int
  template_height : Option Int
deriving DecidableEq, Repr

/-- An OpenCV `DMatch`: the distance of the match pair and the index of the
matched frame keypoint (`trainIdx`).  L2 descriptor distances are
nonnegative; that fact is taken as a hypothesis where a claim needs it. -/
structure DMatch where
  distance : Rat
  trainIdx : Nat
deriving DecidableEq, Repr

/-- An OpenCV keypoint: its frame-space coordinates `pt`. -/
structure KeyPoint where
  pt : Rat × Rat
deriving DecidableEq, Repr

/-- models/template_candidate.py: a template variant's metadata.  The
descriptor array itself is opaque to the core logic (it is only handed to
the knn matcher, modelled below as an oracle per template), so only the
drawn size is kept. -/
structure TemplateCandidate where
  width : Int
  height : Int
deriving DecidableEq, Repr

/-- The Lowe ratio-test filter of `ButtonDetector._match_template`: keep
`m` from each knn pair `[m, n]` with `m.distance < ratio * n.distance`;
pairs that do not have exactly two entries are skipped. -/
def goodMatches (rt : Rat) (ms : List (List DMatch)) : List DMatch :=
  ms.filterMap fun pair =>
    match pair with
    | [m, n] => if m.distance < rt * n.distance then some m else none
    | _ => none

/-- The confidence formula of `ButtonDetector._match_template`:
`min(num_matches / (min_matches * 2), 1.0)`. -/
def confidence (min_matches num : Nat) : Rat :=
  min ((num : Rat) / ((min_matches : Rat) * 2)) 1

/-- `ButtonDetector._match_template`: run the ratio test over the knn
output `ms` for one template, reject when fewer than `min_matches` good
matches remain, otherwise report the truncated centroid of the good
matches' keypoints shifted by the crop offset, with the confidence
formula above. -/
def matchTemplate (template : TemplateCandidate) (kps : List KeyPoint)
    (button_type : ButtonType) (min_matches : Nat) (rt : Rat)
    (offset_x offset_y : Int) (ms : List (List DMatch)) : Option DetectionResult :=
  let good := goodMatches rt ms
  if good.length < min_matches then none
  else
    let pts := good.map fun m => (kps.getD m.trainIdx { pt := (0, 0) }).pt
    let cx : Rat := (pts.map Prod.fst).sum / (good.length : Rat) + (offset_x : Rat)
    let cy : Rat := (pts.map Prod.snd).sum / (good.length : Rat) + (offset_y : Rat)
    some { button_type := button_type, x := pyInt cx, y := pyInt cy,
           confidence := confidence min_matches good.length,
           num_matches := good.length,
           template_width := some template.width,
           template_height := some template.height }

/-- One comparison step of the template-selection loop of
`ButtonDetector.detect`: a per-template result replaces the accumulator
only when it exists and strictly exceeds the accumulator's `num_matches`
(so the first registered template wins ties). -/
def betterOf (r best : Option DetectionResult) : Option DetectionResult :=
  match r, best with
  | some r, none => some r
  | some r, some b => if r.num_matches > b.num_matches then some r else some b
  | none, b => b

/-- The template-selection fold of `ButtonDetector.detect`: keep the result
with the strictly largest `num_matches`, first registered template winning
ties. -/
def bestResult (f : TemplateCandidate → Option DetectionResult) :
    List TemplateCandidate → Option DetectionResult → Option DetectionResult
  | [], best => best
  | t :: ts, best => bestResult f ts (betterOf (f t) best)

/-- The output of `cv2.SIFT.detectAndCompute` on the (possibly cropped)
grayscale frame: the keypoint list and whether a descriptor array was
produced (`des is None` when no features were found). -/
structure SiftOut where
  kps : List KeyPoint
  desPresent : Bool
deriving DecidableEq, Repr

/-- The bbox-clipping step of `ButtonDetector.detect`: clip the requested
box to the frame bounds and return the crop offset, or `none` when the
clipped box is degenerate (`x2 <= x1 or y2 <= y1`).  With no bbox the
whole frame is searched with offset `(0, 0)`. -/
def clipOffset (frameW frameH : Int) : Option BoundingBox → Option (Int × Int)
  | none => some (0, 0)
  | some b =>
    let x1 := max 0 b.x1
    let y1 := max 0 b.y1
    let x2 := min frameW b.x2
    let y2 := min frameH b.y2
    if x2 ≤ x1 ∨ y2 ≤ y1 then none else some (x1, y1)

/-- The keypoint-and-matching stage of `ButtonDetector.detect`, given the
resolved crop offset: return `none` when feature extraction produced no
descriptors or no keypoints, otherwise fold the per-template matcher over
the candidate list. -/
def detectFromOffset (candidates : List TemplateCandidate) (sift : SiftOut)
    (knn : TemplateCandidate → List (List DMatch)) (button_type : ButtonType)
    (min_matches : Nat) (rt : Rat) : Option (Int × Int) → Option DetectionResult
  | none => none
  | some (ox, oy) =>
    if !sift.desPresent || sift.kps.isEmpty then none
    else
      bestResult
        (fun t => matchTemplate t sift.kps button_type min_matches rt ox oy (knn t))
        candidates none

/-- `ButtonDetector.detect` for one button kind.  `candidates` is the
template candidate list the detector resolved for the kind (empty when no
descriptors are registered), `frameW`/`frameH` are `img.shape[1]` and
`img.shape[0]`, `sift` is the keypoint extraction on the searched region
and `knn` the matcher output per template; these stand for the OpenCV
collaborators.  An explicit bbox is clipped to the frame and a degenerate
clipped box returns `none` before any feature work. -/
def detect (candidates : List TemplateCandidate) (frameW frameH : Int)
    (sift : SiftOut) (knn : TemplateCandidate → List (List DMatch))
    (button_type : ButtonType) (min_matches : Nat) (rt : Rat)
    (bbox : Option BoundingBox) : Option DetectionResult :=
  if candidates.isEmpty then none
  else
    detectFromOffset candidates sift knn button_type min_matches rt
      (clipOffset frameW frameH bbox)

/-- models/scan_state.py: the `ScanState` enumeration. -/
inductive ScanState where
  | IDLE
  | WAITING_FOR_VORTEX
  | VORTEX_CLICKED
  | WAITING_FOR_WEB
  | WEB_CLICKED
  | HANDLING_POPUP
  | ERROR
deriving DecidableEq, Repr

/-- models/scan_status.py: the mutable `ScanStatus` aggregate. -/
structure ScanStatus where
  state : ScanState
  current_action : String
  detections : List DetectionResult
  clicks_count : Nat
  errors : List String
  web_retry_count : Nat
deriving DecidableEq, Repr

/-- models/app_config.py: the configuration fields the core loop reads.
The pydantic constraints are `min_matches ≥ 1`, `ratio_threshold ∈ [0,1]`
and `wabbajack_retry_limit ≥ 1`. -/
structure AppConfig where
  vortex : Bool
  legacy : Bool
  force_primary : Bool
  min_matches : Nat
  ratio_threshold : Rat
  wabbajack_retry_limit : Nat
deriving DecidableEq, Repr

/-- The per-tick external observations of `Scanner.scan_loop`: the vortex
window rect reported by the window manager and the outcome of each
`ButtonDetector.detect` call the tick may issue.  Each field stands for one
OpenCV/win32 collaborator result; the scanner's own branching, counter and
status arithmetic below is translated from the source. -/
structure TickEnv where
  vortex_bbox : Option BoundingBox
  understood_detection : Option DetectionResult
  staging_detection : Option DetectionResult
  vortex_detection : Option DetectionResult
  website_detection : Option DetectionResult
  wabbajack_detection : Option DetectionResult
  click_detection : Option DetectionResult
deriving DecidableEq, Repr

/-- The scan loop's state: the published status aggregate plus the two
local phase flags of `Scanner.scan_loop`. -/
structure ScannerState where
  status : ScanStatus
  vortex_found : Bool
  web_clicked : Bool
deriving DecidableEq, Repr

/-- `Scanner._click_detection`: increment `clicks_count` and append the
detection to `detections` (the click itself is an external effect). -/
def clickDetection (s : ScanStatus) (d : DetectionResult) : ScanStatus :=
  { s with clicks_count := s.clicks_count + 1, detections := s.detections ++ [d] }

/-- `Scanner._handle_vortex_state`: wait for the window, handle legacy
popup dialogs (understood before staging, clicking at most one and ending
the tick), else click the vortex button if detected.  Returns the updated
status and the `vortex_found` flag. -/
def handleVortexState (cfg : AppConfig) (env : TickEnv) (s : ScanStatus) :
    ScanStatus × Bool :=
  match env.vortex_bbox with
  | none => ({ s with current_action := "Waiting for Vortex window..." }, false)
  | some _ =>
    let popupHit : Option (DetectionResult × String) :=
      if cfg.legacy then
        match env.understood_detection with
        | some d => some (d, "Clicking Understood button")
        | none =>
          match env.staging_detection with
          | some d => some (d, "Clicking Staging button")
          | none => none
      else none
    match popupHit with
    | some (d, act) =>
      (clickDetection { s with state := ScanState.HANDLING_POPUP, current_action := act } d,
        false)
    | none =>
      match env.vortex_detection with
      | some d =>
        (clickDetection { s with current_action := "Clicking Vortex download button" } d, true)
      | none => ({ s with current_action := "Searching for Vortex button..." }, false)

/-- `Scanner._handle_web_state`: try the website button, and additionally
the wabbajack button when the vortex workflow is disabled; on a hit click
it and zero the retry counter; on a miss either zero the counter (when it
already reached `wabbajack_retry_limit`) or increment it.  Returns the
updated status and the `web_clicked` flag. -/
def handleWebState (cfg : AppConfig) (env : TickEnv) (s : ScanStatus) :
    ScanStatus × Bool :=
  let hit : Option (DetectionResult × String) :=
    match env.website_detection with
    | some d => some (d, "Clicking website download button")
    | none =>
      if cfg.vortex then none
      else
        match env.wabbajack_detection with
        | some d => some (d, "Clicking Wabbajack download button")
        | none => none
  match hit with
  | some (d, act) =>
    let s1 := clickDetection { s with current_action := act } d
    ({ s1 with web_retry_count := 0 }, true)
  | none =>
    if cfg.wabbajack_retry_limit ≤ s.web_retry_count then
      ({ s with current_action := "Restarting (button not found)", web_retry_count := 0 },
        false)
    else
      ({ s with
          web_retry_count := s.web_retry_count + 1,
          current_action := "Searching for web download button..." }, false)

/-- `Scanner._handle_click_dialog_state`: in non-legacy mode the phase is
satisfied immediately; in legacy mode click the confirmation dialog if
detected.  Returns the updated status and whether the dialog phase is
complete. -/
def handleClickDialogState (cfg : AppConfig) (env : TickEnv) (s : ScanStatus) :
    ScanStatus × Bool :=
  if !cfg.legacy then ({ s with current_action := "Skipping legacy click dialog" }, true)
  else
    match env.click_detection with
    | some d => (clickDetection { s with current_action := "Clicking dialog button" } d, true)
    | none => ({ s with current_action := "Waiting for click dialog..." }, false)

/-- The scanner state at loop entry: `Scanner.__init__` builds
`ScanStatus(current_action="Initialized")` (all counters zero, lists
empty), and the top of `Scanner.scan_loop` sets the state to
`WAITING_FOR_VORTEX` when the vortex workflow is enabled, else
`WAITING_FOR_WEB`; both phase flags start false. -/
def initState (cfg : AppConfig) : ScannerState :=
  { status := { state := if cfg.vortex then ScanState.WAITING_FOR_VORTEX
                  else ScanState.WAITING_FOR_WEB,
                current_action := "Initialized", detections := [], clicks_count := 0,
                errors := [], web_retry_count := 0 },
    vortex_found := false, web_clicked := false }

/-- One iteration of the `while` body of `Scanner.scan_loop` (capture and
sleeps are external): branch on the phase flags, run the matching handler
and update the flags and the published state field exactly as the source
does. -/
def tick (cfg : AppConfig) (st : ScannerState) (env : TickEnv) : ScannerState :=
  if !st.vortex_found && cfg.vortex then
    let s0 := { st.status with state := ScanState.WAITING_FOR_VORTEX }
    let res := handleVortexState cfg env s0
    let s1 := if res.2 then { res.1 with state := ScanState.VORTEX_CLICKED } else res.1
    { st with status := s1, vortex_found := res.2 }
  else if st.web_clicked && cfg.vortex then
    let s0 := { st.status with state := ScanState.WEB_CLICKED }
    let res := handleClickDialogState cfg env s0
    if res.2 then
      { st with
        status := { res.1 with state := ScanState.WAITING_FOR_VORTEX },
        vortex_found := false, web_clicked := false }
    else
      { st with status := res.1 }
  else if st.vortex_found || !cfg.vortex then
    let s0 := { st.status with state := ScanState.WAITING_FOR_WEB }
    let res := handleWebState cfg env s0
    if res.2 && !cfg.vortex then
      { st with status := res.1, vortex_found := false, web_clicked := false }
    else
      { st with status := res.1, web_clicked := res.2 }
  else st

/-- `Scanner.scan_loop` run over a finite sequence of per-tick
observations. -/
def scanLoop (cfg : AppConfig) (envs : List TickEnv) : ScannerState :=
  envs.foldl (tick cfg) (initState cfg)

/-- A vortex-workflow configuration with `wabbajack_retry_limit = 1`,
used to exercise the web-phase restart branch on concrete inputs. -/
def c4cfg : AppConfig :=
  { vortex := true, legacy := false, force_primary := false,
    min_matches := 8, ratio_threshold := 3 / 4, wabbajack_retry_limit := 1 }

/-- A concrete vortex-button detection. -/
def c4det : DetectionResult :=
  { button_type := ButtonType.VORTEX, x := 5, y := 5, confidence := 1,
    num_matches := 8, template_width := some 10, template_height := some 10 }

/-- A tick observation where the vortex window is visible and the vortex
button is detected. -/
def c4hit : TickEnv :=
  { vortex_bbox := some { x1 := 0, y1 := 0, x2 := 10, y2 := 10 },
    understood_detection := none, staging_detection := none,
    vortex_detection := some c4det, website_detection := none,
    wabbajack_detection := none, click_detection := none }

/-- A tick observation where nothing is detected. -/
def c4miss : TickEnv :=
  { vortex_bbox := none, understood_detection := none, staging_detection := none,
    vortex_detection := none, website_detection := none,
    wabbajack_detection := none, click_detection := none }

/-- A concrete primary monitor used by the geometry witnesses. -/
def wMon : Monitor := { x := 0, y := 0, width := 1920, height := 1080 }

/-- Two mss physical displays, one left of the primary: monitors at
`(-1920, 0, 1920, 1080)` and `(0, 0, 1920, 1080)`. -/
def wPhys : List Rect :=
  [{ top := 0, left := -1920, width := 1920, height := 1080 },
   { top := 0, left := 0, width := 1920, height := 1080 }]

/-- The screen capture built over `wPhys` without `force_primary`. -/
def wCap : ScreenCapture :=
  { monitors := [wMon], screen_monitors := mssMonitors wPhys, force_primary := false,
    v_monitor := determineCaptureRegion false [wMon] (mssMonitors wPhys) }

/-- The screen capture built with `force_primary` over an mss list that
reports exactly the supplied monitor. -/
def wCapPrimary : ScreenCapture :=
  { monitors := [wMon], screen_monitors := mssMonitors [Monitor.toRect wMon],
    force_primary := true,
    v_monitor := determineCaptureRegion true [wMon] (mssMonitors [Monitor.toRect wMon]) }

/-- The screen capture built with `force_primary` over an empty mss list
(the fallback path of `_get_primary_monitor_bounds`). -/
def wCapFallback : ScreenCapture :=
  { monitors := [wMon], screen_monitors := [], force_primary := true,
    v_monitor := determineCaptureRegion true [wMon] [] }

/-- C1: for every constructed `ScreenCapture` and every integer pair, the
two coordinate conversions `img_coords_to_monitor_coords` and
`monitor_coords_to_img_coords` are exact two-sided integer inverses. -/
theorem coords_conversions_inverse (sc : ScreenCapture) (x y : Int) :
    sc.monitor_coords_to_img_coords (sc.img_coords_to_monitor_coords x y).1
      (sc.img_coords_to_monitor_coords x y).2 = (x, y) ∧
    sc.img_coords_to_monitor_coords (sc.monitor_coords_to_img_coords x y).1
      (sc.monitor_coords_to_img_coords x y).2 = (x, y) := by
  constructor <;>
    simp [ScreenCapture.img_coords_to_monitor_coords,
      ScreenCapture.monitor_coords_to_img_coords]

/-- C7 counterexample: the valid box `(0, 0, 2, 2)` padded with the
fraction `1/2` (inside `[0, 1]`) does not succeed: both padded edges
collapse onto each other and the constructor's validator rejects the
result, so `pad` is not total on valid boxes and fractions in `[0, 1]`. -/
theorem pad_can_fail :
    BoundingBox.isValid { x1 := 0, y1 := 0, x2 := 2, y2 := 2 } ∧
    (0 : Rat) ≤ 1 / 2 ∧ (1 / 2 : Rat) ≤ 1 ∧
    BoundingBox.pad { x1 := 0, y1 := 0, x2 := 2, y2 := 2 } (1 / 2) = none := by
  refine ⟨by constructor <;> decide, by norm_num, by norm_num, ?_⟩
  simp only [BoundingBox.pad, mkBoundingBox, BoundingBox.width, BoundingBox.height, pyInt]
  norm_num [Rat.floor_def']

/-- C7 amended: for a valid box and a fraction `f ∈ [0, 1]`, `pad` moves
each edge inward by the truncated amount `⌊f * extent⌋` on its axis, and
succeeds exactly when the shrunken box is still strictly valid (the two
pad amounts do not consume the whole extent); otherwise construction
fails. -/
theorem pad_moves_edges_inward (b : BoundingBox) (f : Rat)
    (hb : b.isValid) (h0 : 0 ≤ f) (h1 : f ≤ 1) :
    BoundingBox.pad b f =
      if 2 * ⌊(b.width : Rat) * f⌋ < b.width ∧ 2 * ⌊(b.height : Rat) * f⌋ < b.height then
        some { x1 := b.x1 + ⌊(b.width : Rat) * f⌋, y1 := b.y1 + ⌊(b.height : Rat) * f⌋,
               x2 := b.x2 - ⌊(b.width : Rat) * f⌋, y2 := b.y2 - ⌊(b.height : Rat) * f⌋ }
      else none := by
  obtain ⟨hx, hy⟩ := hb
  have hfloor : ∀ q : Rat, 0 ≤ q → pyInt q = ⌊q⌋ := by
    intro q hq
    unfold pyInt
    rw [if_pos hq, Rat.floor_def', Rat.floor_def]
  have hw : (0 : Rat) ≤ (b.width : Rat) * f := by
    have h2 : (0 : Rat) ≤ (b.width : Rat) := by
      have h3 : (0 : Int) ≤ b.width := by unfold BoundingBox.width; omega
      exact_mod_cast h3
    exact mul_nonneg h2 h0
  have hh : (0 : Rat) ≤ (b.height : Rat) * f := by
    have h2 : (0 : Rat) ≤ (b.height : Rat) := by
      have h3 : (0 : Int) ≤ b.height := by unfold BoundingBox.height; omega
      exact_mod_cast h3
    exact mul_nonneg h2 h0
  simp only [BoundingBox.pad, mkBoundingBox, hfloor _ hw, hfloor _ hh]
  generalize ⌊(b.width : Rat) * f⌋ = wp
  generalize ⌊(b.height : Rat) * f⌋ = hp
  simp only [BoundingBox.width, BoundingBox.height]
  refine if_congr ?_ rfl rfl
  constructor <;> intro h <;> omega

/-- Witness for the amended C7: padding the valid box `(0, 0, 10, 10)` by
`1/10` moves every edge inward by `⌊10 * (1/10)⌋ = 1`. -/
theorem pad_moves_edges_inward_witness :
    BoundingBox.pad { x1 := 0, y1 := 0, x2 := 10, y2 := 10 } (1 / 10) =
      some { x1 := 1, y1 := 1, x2 := 9, y2 := 9 } := by
  rw [pad_moves_edges_inward { x1 := 0, y1 := 0, x2 := 10, y2 := 10 } (1 / 10)
    (by constructor <;> decide) (by norm_num) (by norm_num)]
  norm_num [BoundingBox.width, BoundingBox.height]

/-- Helper: `_match_template` rejects a template whose good-match count is
below `min_matches`. -/
theorem matchTemplate_eq_none (t : TemplateCandidate) (kps : List KeyPoint)
    (bt : ButtonType) (mm : Nat) (rt : Rat) (ox oy : Int) (ms : List (List DMatch))
    (h : (goodMatches rt ms).length < mm) :
    matchTemplate t kps bt mm rt ox oy ms = none := by
  simp only [matchTemplate]
  rw [if_pos h]

/-- Helper: when `_match_template` returns a result, the result's match
count is the good-match count, which passed the threshold, and its
confidence is the confidence formula at that count. -/
theorem matchTemplate_some_spec (t : TemplateCandidate) (kps : List KeyPoint)
    (bt : ButtonType) (mm : Nat) (rt : Rat) (ox oy : Int) (ms : List (List DMatch))
    (r : DetectionResult) (h : matchTemplate t kps bt mm rt ox oy ms = some r) :
    r.num_matches = (goodMatches rt ms).length ∧
    mm ≤ r.num_matches ∧
    r.confidence = confidence mm (goodMatches rt ms).length := by
  simp only [matchTemplate] at h
  by_cases hlt : (goodMatches rt ms).length < mm
  · rw [if_pos hlt] at h
    cases h
  · rw [if_neg hlt] at h
    have h2 := Option.some.inj h
    subst h2
    refine ⟨rfl, ?_, rfl⟩
    show mm ≤ (goodMatches rt ms).length
    omega

/-- Helper: the better-of-two step of the template-selection loop keeps
any property that holds for both inputs. -/
theorem betterOf_prop (P : DetectionResult → Prop) (a b : Option DetectionResult)
    (ha : ∀ r, a = some r → P r) (hb : ∀ r, b = some r → P r) :
    ∀ r, betterOf a b = some r → P r := by
  intro r h
  cases a with
  | none => exact hb r h
  | some ra =>
    cases b with
    | none =>
      simp only [betterOf] at h
      exact ha r h
    | some rb =>
      simp only [betterOf] at h
      split at h
      · exact ha r h
      · exact hb r h

/-- Helper: the selection fold over the template list keeps any property
holding for every per-template result and for the accumulator. -/
theorem bestResult_prop (f : TemplateCandidate → Option DetectionResult)
    (P : DetectionResult → Prop) (hf : ∀ t r, f t = some r → P r) :
    ∀ (l : List TemplateCandidate) (b : Option DetectionResult),
      (∀ r, b = some r → P r) → ∀ r, bestResult f l b = some r → P r := by
  intro l
  induction l with
  | nil => intro b hb r h; exact hb r h
  | cons t ts ih =>
    intro b hb r h
    simp only [bestResult] at h
    exact ih (betterOf (f t) b) (betterOf_prop P (f t) b (hf t) hb) r h

/-- Helper: when every per-template result is `none`, the selection fold
returns its accumulator. -/
theorem bestResult_id (f : TemplateCandidate → Option DetectionResult)
    (l : List TemplateCandidate) (hf : ∀ t ∈ l, f t = none) :
    ∀ b, bestResult f l b = b := by
  induction l with
  | nil => intro b; rfl
  | cons t ts ih =>
    intro b
    have ht : f t = none := hf t (List.mem_cons_self t ts)
    simp only [bestResult, ht, betterOf]
    exact ih (fun u hu => hf u (List.mem_cons_of_mem t hu)) b

/-- Helper: `detect` returns `none` when every registered template's
good-match count is below the threshold. -/
theorem detect_none_of_all_below (candidates : List TemplateCandidate)
    (frameW frameH : Int) (sift : SiftOut) (knn : TemplateCandidate → List (List DMatch))
    (bt : ButtonType) (mm : Nat) (rt : Rat) (bbox : Option BoundingBox)
    (hall : ∀ t ∈ candidates, (goodMatches rt (knn t)).length < mm) :
    detect candidates frameW frameH sift knn bt mm rt bbox = none := by
  unfold detect
  split
  · rfl
  · cases hoff : clipOffset frameW frameH bbox with
    | none => rfl
    | some p =>
      obtain ⟨ox, oy⟩ := p
      simp only [detectFromOffset]
      split
      · rfl
      · exact bestResult_id _ candidates
          (fun t ht => matchTemplate_eq_none t sift.kps bt mm rt ox oy (knn t) (hall t ht))
          none

/-- Helper: a result returned by `detect` carries at least `min_matches`
good matches. -/
theorem detect_some_min (candidates : List TemplateCandidate)
    (frameW frameH : Int) (sift : SiftOut) (knn : TemplateCandidate → List (List DMatch))
    (bt : ButtonType) (mm : Nat) (rt : Rat) (bbox : Option BoundingBox)
    (r : DetectionResult)
    (h : detect candidates frameW frameH sift knn bt mm rt bbox = some r) :
    mm ≤ r.num_matches := by
  unfold detect at h
  split at h
  · cases h
  · cases hoff : clipOffset frameW frameH bbox with
    | none =>
      rw [hoff] at h
      cases h
    | some p =>
      rw [hoff] at h
      obtain ⟨ox, oy⟩ := p
      simp only [detectFromOffset] at h
      split at h
      · cases h
      · exact bestResult_prop _ (fun r2 => mm ≤ r2.num_matches)
          (fun t r2 h2 =>
            ((matchTemplate_some_spec t sift.kps bt mm rt ox oy (knn t) r2 h2).2).1)
          candidates none (by intro r2 h2; cases h2) r h

/-- C2: with at least one registered template and `min_matches >= 1`,
`detect` returns `none` whenever every template's good-match count (knn
pairs passing the ratio test) is strictly below `min_matches`, and any
returned `DetectionResult` has `num_matches >= min_matches`. -/
theorem detect_respects_min_matches (candidates : List TemplateCandidate)
    (frameW frameH : Int) (sift : SiftOut)
    (knn : TemplateCandidate → List (List DMatch)) (bt : ButtonType)
    (mm : Nat) (rt : Rat) (bbox : Option BoundingBox)
    (hc : candidates ≠ []) (hm : 1 ≤ mm) :
    ((∀ t ∈ candidates, (goodMatches rt (knn t)).length < mm) →
      detect candidates frameW frameH sift knn bt mm rt bbox = none) ∧
    (∀ r, detect candidates frameW frameH sift knn bt mm rt bbox = some r →
      mm ≤ r.num_matches) := by
  constructor
  · intro hall
    exact detect_none_of_all_below candidates frameW frameH sift knn bt mm rt bbox hall
  · intro r h
    exact detect_some_min candidates frameW frameH sift knn bt mm rt bbox r h

/-- Witness for C2: one registered template whose knn output is empty
yields no good matches, so `detect` under `min_matches = 1` returns
`none`. -/
theorem detect_respects_min_matches_witness :
    detect [{ width := 10, height := 10 }] 100 100
      { kps := [{ pt := (0, 0) }], desPresent := true } (fun _ => [])
      ButtonType.VORTEX 1 (3 / 4) none = none :=
  (detect_respects_min_matches [{ width := 10, height := 10 }] 100 100
    { kps := [{ pt := (0, 0) }], desPresent := true } (fun _ => [])
    ButtonType.VORTEX 1 (3 / 4) none (by decide) (by decide)).1
    (by intro t ht; simp [goodMatches])

/-- C3: every result returned by `_match_template` has confidence
`min(num_matches / (2 * min_matches), 1)`; as a function of the match
count this formula is monotonically non-decreasing, saturates at exactly 1
once the count reaches `2 * min_matches`, and equals `1/2` at exactly
`min_matches` matches. -/
theorem confidence_spec (t : TemplateCandidate) (kps : List KeyPoint)
    (bt : ButtonType) (mm : Nat) (rt : Rat) (ox oy : Int)
    (ms : List (List DMatch)) (hm : 1 ≤ mm) :
    (∀ r, matchTemplate t kps bt mm rt ox oy ms = some r →
      r.confidence = min ((r.num_matches : Rat) / (2 * (mm : Rat))) 1) ∧
    (∀ n1 n2 : Nat, n1 ≤ n2 → confidence mm n1 ≤ confidence mm n2) ∧
    (∀ n : Nat, 2 * mm ≤ n → confidence mm n = 1) ∧
    confidence mm mm = 1 / 2 := by
  have hmm : (0 : Rat) < (mm : Rat) * 2 := by
    have h0 : (0 : Rat) < (mm : Rat) := by exact_mod_cast hm
    linarith
  refine ⟨?_, ?_, ?_, ?_⟩
  · intro r h
    obtain ⟨hnum, _, hconf⟩ := matchTemplate_some_spec t kps bt mm rt ox oy ms r h
    rw [hconf, hnum, confidence, mul_comm (2 : Rat) (mm : Rat)]
  · intro n1 n2 hle
    unfold confidence
    refine min_le_min ?_ le_rfl
    exact (div_le_div_right hmm).mpr (by exact_mod_cast hle)
  · intro n hn
    unfold confidence
    rw [min_eq_right]
    rw [one_le_div hmm]
    have h2 : ((2 * mm : Nat) : Rat) ≤ ((n : Nat) : Rat) := by exact_mod_cast hn
    push_cast at h2
    linarith
  · unfold confidence
    have hne : (mm : Rat) ≠ 0 := by positivity
    rw [show ((mm : Rat)) / ((mm : Rat) * 2) = 1 / 2 by field_simp]
    rw [min_eq_left]
    norm_num

/-- Witness for C3: at `min_matches = 8` the confidence is `1/2` for 8
matches, `1` for 16 matches, and non-decreasing from 4 to 6 matches. -/
theorem confidence_spec_witness :
    confidence 8 8 = 1 / 2 ∧ confidence 8 16 = 1 ∧ confidence 8 4 ≤ confidence 8 6 :=
  ⟨(confidence_spec { width := 1, height := 1 } [] ButtonType.VORTEX 8 (3 / 4) 0 0 []
      (by decide)).2.2.2,
   (confidence_spec { width := 1, height := 1 } [] ButtonType.VORTEX 8 (3 / 4) 0 0 []
      (by decide)).2.2.1 16 (by decide),
   (confidence_spec { width := 1, height := 1 } [] ButtonType.VORTEX 8 (3 / 4) 0 0 []
      (by decide)).2.1 4 6 (by decide)⟩

/-- C8: when the bbox argument clipped to the frame bounds is degenerate
(`min frameW x2 <= max 0 x1` or `min frameH y2 <= max 0 y1`), `detect`
returns `none`; no exception path exists (the embedding is a total
function and this branch precedes all feature work). -/
theorem detect_degenerate_bbox_none (candidates : List TemplateCandidate)
    (frameW frameH : Int) (sift : SiftOut)
    (knn : TemplateCandidate → List (List DMatch)) (bt : ButtonType)
    (mm : Nat) (rt : Rat) (b : BoundingBox)
    (h : min frameW b.x2 ≤ max 0 b.x1 ∨ min frameH b.y2 ≤ max 0 b.y1) :
    detect candidates frameW frameH sift knn bt mm rt (some b) = none := by
  have hclip : clipOffset frameW frameH (some b) = none := by
    simp only [clipOffset]
    rw [if_pos h]
  unfold detect
  split
  · rfl
  · rw [hclip]
    rfl

/-- Witness for C8: a bbox entirely right of and below a 5 x 5 frame clips
to a degenerate box and `detect` returns `none`. -/
theorem detect_degenerate_bbox_none_witness :
    detect [{ width := 5, height := 5 }] 5 5
      { kps := [{ pt := (1, 1) }], desPresent := true } (fun _ => [])
      ButtonType.CLICK 6 (3 / 4) (some { x1 := 10, y1 := 10, x2 := 20, y2 := 20 }) =
      none :=
  detect_degenerate_bbox_none [{ width := 5, height := 5 }] 5 5
    { kps := [{ pt := (1, 1) }], desPresent := true } (fun _ => [])
    ButtonType.CLICK 6 (3 / 4) { x1 := 10, y1 := 10, x2 := 20, y2 := 20 } (by decide)

/-- Helper: with nonnegative runner-up distances, loosening the ratio
threshold keeps every previously accepted match: the good-match list at
the smaller threshold is a sublist of the one at the larger threshold. -/
theorem goodMatches_sublist (r1 r2 : Rat) (hr : r1 ≤ r2) :
    ∀ ms : List (List DMatch), (∀ p ∈ ms, ∀ d ∈ p, 0 ≤ d.distance) →
      List.Sublist (goodMatches r1 ms) (goodMatches r2 ms) := by
  intro ms
  induction ms with
  | nil => intro _; simp [goodMatches]
  | cons p ps ih =>
    intro hd
    have hd2 : ∀ q ∈ ps, ∀ d ∈ q, 0 ≤ d.distance :=
      fun q hq => hd q (List.mem_cons_of_mem p hq)
    have ihs := ih hd2
    rcases p with _ | ⟨m, _ | ⟨n, _ | ⟨x, xs⟩⟩⟩
    · simpa [goodMatches, List.filterMap_cons] using ihs
    · simpa [goodMatches, List.filterMap_cons] using ihs
    · have hn : 0 ≤ n.distance := hd [m, n] (List.mem_cons_self _ _) n (by simp)
      by_cases h1 : m.distance < r1 * n.distance
      · have h2 : m.distance < r2 * n.distance :=
          lt_of_lt_of_le h1 (mul_le_mul_of_nonneg_right hr hn)
        simp only [goodMatches, List.filterMap_cons] at ihs ⊢
        rw [if_pos h1, if_pos h2]
        exact List.Sublist.cons₂ m ihs
      · by_cases h2 : m.distance < r2 * n.distance
        · simp only [goodMatches, List.filterMap_cons] at ihs ⊢
          rw [if_neg h1, if_pos h2]
          exact List.Sublist.cons m ihs
        · simp only [goodMatches, List.filterMap_cons] at ihs ⊢
          rw [if_neg h1, if_neg h2]
          exact ihs
    · simpa [goodMatches, List.filterMap_cons] using ihs

/-- C9: for a fixed list of k=2 knn pairs with nonnegative distances, the
ratio-test filter is monotone in the threshold: every pair accepted at
`r1 <= r2` is accepted at `r2`, so the good-match count cannot decrease. -/
theorem ratio_test_monotone (r1 r2 : Rat) (ms : List (List DMatch))
    (hr : r1 ≤ r2) (hd : ∀ p ∈ ms, ∀ d ∈ p, 0 ≤ d.distance) :
    (∀ m ∈ goodMatches r1 ms, m ∈ goodMatches r2 ms) ∧
    (goodMatches r1 ms).length ≤ (goodMatches r2 ms).length := by
  have hs := goodMatches_sublist r1 r2 hr ms hd
  exact ⟨fun m hm => hs.subset hm, hs.length_le⟩

/-- Witness for C9: the pair with distances `(1, 2)` fails the ratio test
at `1/2` (since `1 < 1` is false) but passes at `3/4` (since `1 < 3/2`),
so the counts are `0 <= 1`. -/
theorem ratio_test_monotone_witness :
    (goodMatches (1 / 2)
        [[{ distance := 1, trainIdx := 0 }, { distance := 2, trainIdx := 0 }]]).length ≤
    (goodMatches (3 / 4)
        [[{ distance := 1, trainIdx := 0 }, { distance := 2, trainIdx := 0 }]]).length :=
  (ratio_test_monotone (1 / 2) (3 / 4)
    [[{ distance := 1, trainIdx := 0 }, { distance := 2, trainIdx := 0 }]]
    (by norm_num)
    (by
      intro p hp d hdp
      simp only [List.mem_singleton] at hp
      subst hp
      simp only [List.mem_cons, List.not_mem_nil, or_false] at hdp
      rcases hdp with rfl | rfl <;> norm_num)).2

/-- C5: without `force_primary`, over an mss report of two or more
physical displays, the capture region is `screen.monitors[0]` - the union
bounding box of all enumerated displays (`left = min x`, `top = min y`,
`width = max (x+width) - left`, `height = max (y+height) - top`), which is
negative-offset aware. -/
theorem capture_region_is_union_bbox (monitors : List Monitor)
    (physical : List Rect) (sc : ScreenCapture) (hp : 2 ≤ physical.length)
    (h : mkScreenCapture monitors (mssMonitors physical) false = some sc) :
    sc.v_monitor = unionBBox physical := by
  unfold mkScreenCapture at h
  split at h
  · cases h
  · have h2 := Option.some.inj h
    subst h2
    show determineCaptureRegion false monitors (mssMonitors physical) = unionBBox physical
    unfold determineCaptureRegion
    rw [if_neg]
    · simp [mssMonitors]
    · simp only [mssMonitors, List.length_cons]
      intro hcon
      rcases hcon with hcon | hcon
      · cases hcon
      · omega

/-- Witness for C5: mss displays at `(-1920, 0, 1920, 1080)` and
`(0, 0, 1920, 1080)` give the union region
`{left: -1920, top: 0, width: 3840, height: 1080}`. -/
theorem capture_region_is_union_bbox_witness :
    wCap.v_monitor = unionBBox wPhys ∧
    wCap.v_monitor.left = -1920 ∧
    wCap.v_monitor = { top := 0, left := -1920, width := 3840, height := 1080 } :=
  ⟨capture_region_is_union_bbox [wMon] wPhys wCap (by decide) (by decide),
   by decide, by decide⟩

/-- C6 counterexample: with `force_primary = true`, a supplied primary of
`(0, 0, 1920, 1080)` but an mss physical display reported as
`(0, 0, 100, 100)` (DPI-scaled framebuffer bounds) gives a capture region
equal to the mss bounds, not the supplied primary's own bounds. -/
theorem force_primary_not_own_bounds :
    (mkScreenCapture [{ x := 0, y := 0, width := 1920, height := 1080 }]
        (mssMonitors [{ top := 0, left := 0, width := 100, height := 100 }]) true).map
      ScreenCapture.v_monitor =
      some { top := 0, left := 0, width := 100, height := 100 } ∧
    Monitor.toRect { x := 0, y := 0, width := 1920, height := 1080 } ≠
      { top := 0, left := 0, width := 100, height := 100 } := by
  constructor
  · decide
  · decide

/-- Helper: the L1 monitor-matching key is nonnegative. -/
theorem l1Dist_nonneg (r : Rect) (t : Monitor) : 0 ≤ l1Dist r t := by
  unfold l1Dist
  positivity

/-- Helper: a monitor's own capture rect is at L1 distance zero from it. -/
theorem l1Dist_toRect_self (m : Monitor) : l1Dist m.toRect m = 0 := by
  simp [l1Dist, Monitor.toRect]

/-- Helper: the closest-monitor fold never moves off an accumulator at
distance zero (Python's `min` keeps the first minimum). -/
theorem foldl_closest_self (t : Monitor) (p : Rect) (ps : List Rect)
    (hp : l1Dist p t = 0) :
    ps.foldl (fun best r => if l1Dist r t < l1Dist best t then r else best) p = p := by
  induction ps with
  | nil => rfl
  | cons r rs ih =>
    simp only [List.foldl_cons]
    rw [if_neg]
    · exact ih
    · rw [hp]
      exact not_lt.mpr (l1Dist_nonneg r t)

/-- C6 amended: with `force_primary = true` the capture region is resolved
through the mss monitor list, independent of the supplied monitors other
than the first: when mss enumerates exactly the supplied monitors' bounds
the region equals the first supplied monitor's own bounds, and when mss
reports no monitors the fallback is again the primary's own bounds. -/
theorem force_primary_matches_primary (m : Monitor) (rest : List Monitor)
    (sc sc2 : ScreenCapture)
    (h1 : mkScreenCapture (m :: rest)
        (mssMonitors ((m :: rest).map Monitor.toRect)) true = some sc)
    (h2 : mkScreenCapture (m :: rest) [] true = some sc2) :
    sc.v_monitor = m.toRect ∧ sc2.v_monitor = m.toRect := by
  constructor
  · unfold mkScreenCapture at h1
    split at h1
    · cases h1
    · have h3 := Option.some.inj h1
      subst h3
      show determineCaptureRegion true (m :: rest)
        (mssMonitors ((m :: rest).map Monitor.toRect)) = m.toRect
      unfold determineCaptureRegion
      rw [if_pos (Or.inl rfl)]
      unfold getPrimaryMonitorBounds
      simp only [List.headD_cons, mssMonitors, matchMonitorToMss, List.map_cons,
        List.isEmpty_cons, Bool.false_eq_true, if_false]
      rw [foldl_closest_self m (Monitor.toRect m) (rest.map Monitor.toRect)
        (l1Dist_toRect_self m)]
  · unfold mkScreenCapture at h2
    split at h2
    · cases h2
    · have h3 := Option.some.inj h2
      subst h3
      show determineCaptureRegion true (m :: rest) [] = m.toRect
      unfold determineCaptureRegion
      rw [if_pos (Or.inl rfl)]
      simp [getPrimaryMonitorBounds, matchMonitorToMss]

/-- Witness for the amended C6: a single supplied monitor whose bounds mss
reports verbatim, and the mss-empty fallback, both give the primary's own
bounds. -/
theorem force_primary_matches_primary_witness :
    wCapPrimary.v_monitor = wMon.toRect ∧ wCapFallback.v_monitor = wMon.toRect :=
  force_primary_matches_primary wMon [] wCapPrimary wCapFallback rfl rfl

/-- C4: concrete run of the scan loop with the vortex workflow enabled and
`wabbajack_retry_limit = 1`.  After the vortex click, each web-phase miss
increments `web_retry_count` until it reaches the limit and the next miss
resets it to 0 with the "Restarting" action - but the `vortex_found` phase
flag is never reverted, so the state remains `WAITING_FOR_WEB` on every
following tick instead of returning to `WAITING_FOR_VORTEX`. -/
theorem web_restart_keeps_vortex_phase :
    (scanLoop c4cfg [c4hit, c4miss]).status.web_retry_count = 1 ∧
    (scanLoop c4cfg [c4hit, c4miss, c4miss]).status.web_retry_count = 0 ∧
    (scanLoop c4cfg [c4hit, c4miss, c4miss]).status.current_action =
      "Restarting (button not found)" ∧
    (scanLoop c4cfg [c4hit, c4miss, c4miss]).vortex_found = true ∧
    (scanLoop c4cfg [c4hit, c4miss, c4miss]).status.state =
      ScanState.WAITING_FOR_WEB ∧
    (scanLoop c4cfg [c4hit, c4miss, c4miss, c4miss]).status.state =
      ScanState.WAITING_FOR_WEB := by
  refine ⟨?_, ?_, ?_, ?_, ?_, ?_⟩ <;> rfl

/-- Helper: `_click_detection` appends one detection and adds one click. -/
theorem clickDetection_counts (s : ScanStatus) (d : DetectionResult) :
    (clickDetection s d).clicks_count = s.clicks_count + 1 ∧
    (clickDetection s d).detections = s.detections ++ [d] :=
  ⟨rfl, rfl⟩

/-- Helper: `_click_detection` preserves `clicks_count = |detections|`. -/
theorem clickDetection_inv (s : ScanStatus) (d : DetectionResult)
    (h : s.clicks_count = s.detections.length) :
    (clickDetection s d).clicks_count = (clickDetection s d).detections.length := by
  simp [clickDetection, h]

/-- Helper: the vortex-phase handler preserves `clicks_count = |detections|`. -/
theorem handleVortexState_inv (cfg : AppConfig) (env : TickEnv) (s : ScanStatus)
    (h : s.clicks_count = s.detections.length) :
    (handleVortexState cfg env s).1.clicks_count =
      (handleVortexState cfg env s).1.detections.length := by
  simp only [handleVortexState]
  split
  · simpa using h
  · split
    · exact clickDetection_inv _ _ (by simpa using h)
    · split
      · exact clickDetection_inv _ _ (by simpa using h)
      · simpa using h

/-- Helper: the web-phase handler preserves `clicks_count = |detections|`. -/
theorem handleWebState_inv (cfg : AppConfig) (env : TickEnv) (s : ScanStatus)
    (h : s.clicks_count = s.detections.length) :
    (handleWebState cfg env s).1.clicks_count =
      (handleWebState cfg env s).1.detections.length := by
  simp only [handleWebState]
  split
  · simp only []
    exact clickDetection_inv _ _ (by simpa using h)
  · split
    · simpa using h
    · simpa using h

/-- Helper: the click-dialog handler preserves `clicks_count = |detections|`. -/
theorem handleClickDialogState_inv (cfg : AppConfig) (env : TickEnv) (s : ScanStatus)
    (h : s.clicks_count = s.detections.length) :
    (handleClickDialogState cfg env s).1.clicks_count =
      (handleClickDialogState cfg env s).1.detections.length := by
  simp only [handleClickDialogState]
  split
  · simpa using h
  · split
    · exact clickDetection_inv _ _ (by simpa using h)
    · simpa using h

/-- Helper: one full tick preserves `clicks_count = |detections|`. -/
theorem tick_inv (cfg : AppConfig) (env : TickEnv) (st : ScannerState)
    (h : st.status.clicks_count = st.status.detections.length) :
    (tick cfg st env).status.clicks_count =
      (tick cfg st env).status.detections.length := by
  simp only [tick]
  split
  · have hv := handleVortexState_inv cfg env
      { st.status with state := ScanState.WAITING_FOR_VORTEX } (by simpa using h)
    split <;> simpa using hv
  · split
    · have hd := handleClickDialogState_inv cfg env
        { st.status with state := ScanState.WEB_CLICKED } (by simpa using h)
      split <;> simpa using hd
    · split
      · have hw := handleWebState_inv cfg env
          { st.status with state := ScanState.WAITING_FOR_WEB } (by simpa using h)
        split <;> simpa using hw
      · exact h

/-- Helper: the invariant holds after folding any tick sequence. -/
theorem foldl_tick_inv (cfg : AppConfig) :
    ∀ (envs : List TickEnv) (st : ScannerState),
      st.status.clicks_count = st.status.detections.length →
      ((envs.foldl (tick cfg) st).status.clicks_count =
        (envs.foldl (tick cfg) st).status.detections.length) := by
  intro envs
  induction envs with
  | nil => intro st h; simpa using h
  | cons e es ih =>
    intro st h
    simp only [List.foldl_cons]
    exact ih _ (tick_inv cfg e st h)

/-- C10: the published status invariant `clicks_count = |detections|`.
Both fields start at zero/empty at loop entry, the only mutator
`_click_detection` appends exactly one detection while adding exactly one
click, and the invariant holds after any run of the scan loop. -/
theorem clicks_count_matches_detections (cfg : AppConfig) (envs : List TickEnv) :
    (initState cfg).status.clicks_count = 0 ∧
    (initState cfg).status.detections = [] ∧
    (∀ s d, (clickDetection s d).clicks_count = s.clicks_count + 1 ∧
      (clickDetection s d).detections = s.detections ++ [d]) ∧
    (scanLoop cfg envs).status.clicks_count =
      (scanLoop cfg envs).status.detections.length := by
  refine ⟨rfl, rfl, fun s d => ⟨rfl, rfl⟩, ?_⟩
  exact foldl_tick_inv cfg envs (initState cfg) rfl
